import Mathlib

/-!
Shallow embedding of the SecureGuard CMS security core
(src/types.ts, src/services/securityService.ts, src/components/Auth.tsx,
src/components/AccessControlPanel.tsx, and the application store in
src/unnamed/part_001), together with theorems settling the frozen claims
about the access-decision engine and the authentication/lockout machine.
-/

namespace CMS

/-- `SecurityLevel` enum from src/types.ts (numeric values 0..3). -/
inductive SecurityLevel where
  | PUBLIC
  | INTERNAL
  | CONFIDENTIAL
  | TOP_SECRET
deriving DecidableEq

/-- The numeric value of a `SecurityLevel` enum member (TypeScript enum values). -/
def SecurityLevel.toNat : SecurityLevel → Nat
  | .PUBLIC => 0
  | .INTERNAL => 1
  | .CONFIDENTIAL => 2
  | .TOP_SECRET => 3

/-- The reverse-mapped enum member name `SecurityLevel[level]` used in reason strings. -/
def levelName : SecurityLevel → String
  | .PUBLIC => "PUBLIC"
  | .INTERNAL => "INTERNAL"
  | .CONFIDENTIAL => "CONFIDENTIAL"
  | .TOP_SECRET => "TOP_SECRET"

/-- `Role` enum from src/types.ts. -/
inductive Role where
  | ADMIN
  | MANAGER
  | STAFF
  | AUDITOR
deriving DecidableEq

/-- `Department` enum from src/types.ts. -/
inductive Department where
  | IT
  | HR
  | FINANCE
  | SALES
deriving DecidableEq

/-- The string value of a `Department` enum member (string-valued TS enum). -/
def deptName : Department → String
  | .IT => "IT"
  | .HR => "HR"
  | .FINANCE => "FINANCE"
  | .SALES => "SALES"

/-- `User` interface from src/types.ts. -/
structure User where
  id : String
  username : String
  fullName : String
  email : String
  role : Role
  department : Department
  clearanceLevel : SecurityLevel
  passwordHash : String
  mfaEnabled : Bool
  isLocked : Bool
  failedLoginAttempts : Nat
  biometricsEnabled : Bool
deriving DecidableEq

/-- The `'CONTACT' | 'DOCUMENT' | 'REPORT'` union for `Resource.type` in src/types.ts. -/
inductive ResourceType where
  | CONTACT
  | DOCUMENT
  | REPORT
deriving DecidableEq

/-- `Resource` interface from src/types.ts. -/
structure Resource where
  id : String
  name : String
  type : ResourceType
  content : String
  ownerId : String
  classification : SecurityLevel
  department : Department
  sharedWith : List String
deriving DecidableEq

/-- `SystemConfig` interface from src/types.ts. -/
structure SystemConfig where
  enableMAC : Bool
  enableDAC : Bool
  enableRBAC : Bool
  enableRuBAC : Bool
  enableABAC : Bool
  workingHoursStart : Nat
  workingHoursEnd : Nat
deriving DecidableEq

/-- `AccessDecision` type from src/types.ts. -/
structure AccessDecision where
  allowed : Bool
  reason : String
deriving DecidableEq

/-- The MAC denial reason string built in `checkAccess` (src/services/securityService.ts). -/
def macReason (clearance classification : SecurityLevel) : String :=
  "MAC: Clearance Level " ++ levelName clearance ++ " is insufficient for "
    ++ levelName classification ++ " data."

/-- The ABAC denial reason string built in `checkAccess` (src/services/securityService.ts). -/
def abacReason (userDept resDept : Department) : String :=
  "ABAC: User department (" ++ deptName userDept ++ ") does not match resource department ("
    ++ deptName resDept ++ ")."

/-- The RuBAC denial reason string built in `checkAccess` (src/services/securityService.ts). -/
def rubacReason (hStart hEnd : Nat) : String :=
  "RuBAC: Access denied outside working hours (" ++ toString hStart ++ ":00 - "
    ++ toString hEnd ++ ":00)."

/-- `checkAccess` from src/services/securityService.ts.  The source reads the clock
with `new Date().getHours()` inside the RuBAC branch; that ambient read is made
explicit here as the `currentHour` argument.  Each enabled model may short-circuit
with a deny, in the source's order MAC, ABAC, RBAC, RuBAC, DAC. -/
def checkAccess (user : User) (resource : Resource) (config : SystemConfig)
    (currentHour : Nat) : AccessDecision :=
  if config.enableMAC && decide (user.clearanceLevel.toNat < resource.classification.toNat) then
    { allowed := false, reason := macReason user.clearanceLevel resource.classification }
  else if config.enableABAC && !(user.role == Role.ADMIN)
      && !(user.department == resource.department)
      && decide (resource.classification.toNat > SecurityLevel.PUBLIC.toNat) then
    { allowed := false, reason := abacReason user.department resource.department }
  else if config.enableRBAC && (resource.classification == SecurityLevel.TOP_SECRET)
      && !(user.role == Role.ADMIN) then
    { allowed := false, reason := "RBAC: Only ADMIN role can access TOP_SECRET resources." }
  else if config.enableRBAC
      && decide (resource.classification.toNat ≥ SecurityLevel.CONFIDENTIAL.toNat)
      && (user.role == Role.STAFF) then
    { allowed := false, reason := "RBAC: STAFF role cannot access CONFIDENTIAL or higher resources." }
  else if config.enableRuBAC
      && (decide (currentHour < config.workingHoursStart)
          || decide (currentHour ≥ config.workingHoursEnd))
      && !(user.role == Role.ADMIN) then
    { allowed := false, reason := rubacReason config.workingHoursStart config.workingHoursEnd }
  else if config.enableDAC
      && (!(resource.ownerId == user.id) && !(resource.sharedWith.contains user.id)
          && !(user.role == Role.ADMIN)
          && !(user.role == Role.MANAGER && user.department == resource.department)
          && decide (resource.classification.toNat > SecurityLevel.PUBLIC.toNat)) then
    { allowed := false, reason := "DAC: You do not own this resource and it has not been shared with you." }
  else
    { allowed := true, reason := "Access Granted" }

/-! ## Password strength (src/services/securityService.ts, `validatePasswordStrength`)

The source tests the JavaScript regular expression
`^(?=.*[a-z])(?=.*[A-Z])(?=.*[0-9])(?=.*[!@#$%^&*])(?=.{8,})` against the
password.  The pattern is anchored at position 0 and consists of five
lookaheads; in JavaScript `.` matches every character except the line
terminators `\n`, `\r`, U+2028 and U+2029.  Each lookahead `(?=.*[X])`
therefore succeeds exactly when some character of class `X` occurs with only
non-terminator characters before it, and `(?=.{8,})` succeeds exactly when
the first 8 characters exist and are all non-terminators. -/

/-- A JavaScript line terminator (not matched by `.` in a regex without the `s` flag). -/
def isJsLineTerminator (c : Char) : Bool :=
  c == '\n' || c == '\r' || c == '\u2028' || c == '\u2029'

/-- Whether the regex metacharacter `.` matches `c` in JavaScript. -/
def dotMatches (c : Char) : Bool := !isJsLineTerminator c

/-- Semantics of the lookahead `(?=.*[p])` at position 0: some character
satisfying `p` occurs, preceded only by characters `.` can match. -/
def existsBeforeTerminator (p : Char → Bool) : List Char → Bool
  | [] => false
  | c :: cs => p c || (dotMatches c && existsBeforeTerminator p cs)

/-- Semantics of the lookahead `(?=.{n,})` at position 0: at least `n`
characters follow and the first `n` are all matched by `.`. -/
def dotRun : Nat → List Char → Bool
  | 0, _ => true
  | _ + 1, [] => false
  | n + 1, c :: cs => dotMatches c && dotRun n cs

/-- The regex character class `[a-z]`. -/
def isLowerAZ (c : Char) : Bool := 'a' ≤ c && c ≤ 'z'

/-- The regex character class `[A-Z]`. -/
def isUpperAZ (c : Char) : Bool := 'A' ≤ c && c ≤ 'Z'

/-- The regex character class `[0-9]`. -/
def isDigit09 (c : Char) : Bool := '0' ≤ c && c ≤ '9'

/-- The regex character class `[!@#$%^&*]` (the escapes `\$ \^ \*` in the
source's string literal denote the plain characters). -/
def isStrongSymbol (c : Char) : Bool :=
  c == '!' || c == '@' || c == '#' || c == '$' || c == '%' || c == '^' || c == '&' || c == '*'

/-- `strongRegex.test(password)` from `validatePasswordStrength`: the
conjunction of the five anchored lookaheads. -/
def strongRegexTest (s : String) : Bool :=
  existsBeforeTerminator isLowerAZ s.data
    && existsBeforeTerminator isUpperAZ s.data
    && existsBeforeTerminator isDigit09 s.data
    && existsBeforeTerminator isStrongSymbol s.data
    && dotRun 8 s.data

/-- `validatePasswordStrength` from src/services/securityService.ts. -/
def validatePasswordStrength (password : String) : Option String :=
  if strongRegexTest password then none
  else some "Password must be 8+ chars, include uppercase, number, and symbol."

/-- The strength criterion as the spec words it (for comparison with the
source's regex semantics): at least 8 characters and one character from each
of the four classes, anywhere in the password. -/
def specStrengthCriteria (password : String) : Bool :=
  decide (password.length ≥ 8)
    && password.data.any isLowerAZ
    && password.data.any isUpperAZ
    && password.data.any isDigit09
    && password.data.any isStrongSymbol

/-! ## Authentication machine
(src/components/Auth.tsx together with the store in src/unnamed/part_001) -/

/-- `recordLoginAttempt`'s per-user update (the body of the `map` callback in
src/unnamed/part_001, lines 112-129). -/
def attemptUpdate (username : String) (success : Bool) (u : User) : User :=
  if u.username == username then
    if success then
      { u with failedLoginAttempts := 0, isLocked := false }
    else
      { u with failedLoginAttempts := u.failedLoginAttempts + 1,
               isLocked := decide (u.failedLoginAttempts + 1 ≥ 3) }
  else u

/-- `recordLoginAttempt(username, success)` from src/unnamed/part_001: maps the
update over the user registry held in React state. -/
def recordLoginAttempt (username : String) (success : Bool) (users : List User) : List User :=
  users.map (attemptUpdate username success)

/-- `users.find(u => u.username === username)` as used in `handleLoginSubmit`. -/
def findUser (users : List User) (username : String) : Option User :=
  users.find? (fun u => u.username == username)

/-- The `'CREDENTIALS' | 'MFA'` step state of the Auth screen. -/
inductive AuthStep where
  | CREDENTIALS
  | MFA
deriving DecidableEq

/-- The state touched by the login flow: the user registry (App state), the
Auth screen's step and `tempUser`, and the App's `currentUser` (`some u` is
the Authenticated state). -/
structure AuthMachine where
  users : List User
  step : AuthStep
  tempUser : Option User
  currentUser : Option User
deriving DecidableEq

/-- The observable outcome of a login-flow event handler (which error message
or success path the handler took). -/
inductive LoginOutcome where
  | incorrectCaptcha
  | unknownUser
  | lockedAccount
  | invalidPassword
  | mfaRequired
  | authenticated
  | invalidMfa
deriving DecidableEq

/-- `handleLogin` from src/unnamed/part_001: sets `currentUser` and resets the
user's failures via `recordLoginAttempt(username, true)`. -/
def handleLogin (m : AuthMachine) (u : User) : AuthMachine :=
  { m with currentUser := some u, users := recordLoginAttempt u.username true m.users }

/-- `handleLoginSubmit` from src/components/Auth.tsx (lines 33-67).  The digest
primitive `hashPassword` (SHA-256 via `crypto.subtle`) is passed in as the
function `hash`; the captcha comparison `parseInt(captchaInput) !== captcha.answer`
is modelled on the parsed numbers. -/
def handleLoginSubmit (hash : String → String) (m : AuthMachine)
    (username password : String) (captchaInput captchaAnswer : Int) :
    AuthMachine × LoginOutcome :=
  if !(captchaInput == captchaAnswer) then
    (m, .incorrectCaptcha)
  else
    match findUser m.users username with
    | none => (m, .unknownUser)
    | some user =>
      if user.isLocked then
        (m, .lockedAccount)
      else if !(hash password == user.passwordHash) then
        ({ m with users := recordLoginAttempt username false m.users }, .invalidPassword)
      else if user.mfaEnabled then
        ({ m with tempUser := some user, step := .MFA }, .mfaRequired)
      else
        (handleLogin m user, .authenticated)

/-- `handleMfaSubmit` from src/components/Auth.tsx (lines 81-90): succeeds iff
the token is the fixed value `"123456"` and a `tempUser` is set; otherwise
records a failed attempt for `tempUser?.username || ''`. -/
def handleMfaSubmit (m : AuthMachine) (token : String) : AuthMachine × LoginOutcome :=
  match m.tempUser with
  | some tu =>
    if token == "123456" then
      (handleLogin m tu, .authenticated)
    else
      ({ m with users := recordLoginAttempt tu.username false m.users }, .invalidMfa)
  | none =>
    ({ m with users := recordLoginAttempt "" false m.users }, .invalidMfa)

/-! ## Admin unlock
(src/components/AccessControlPanel.tsx: the ADMIN render guard at line 11 and
`unlockUser` at lines 127-130, composed with `handleUpdateUser` from
src/unnamed/part_001, lines 100-110). -/

/-- The typed failure of a non-ADMIN caller reaching the admin panel (the
guard renders "Access Denied"); the spec calls this `PrivilegeError`. -/
inductive AdminError where
  | privilegeError
deriving DecidableEq

/-- `handleUpdateUser`'s registry update from src/unnamed/part_001: replace
every user with the matching id. -/
def updateUser (updated : User) (users : List User) : List User :=
  users.map (fun u => if u.id == updated.id then updated else u)

/-- `unlockUser` from src/components/AccessControlPanel.tsx (lines 127-130):
update the target with `isLocked: false, failedLoginAttempts: 0`. -/
def unlockUser (target : User) (users : List User) : List User :=
  updateUser { target with isLocked := false, failedLoginAttempts := 0 } users

/-- The admin unlock operation as reachable in the application: the panel's
guard (`currentUser?.role !== 'ADMIN'` renders "Access Denied", so no unlock
happens and the registry is untouched) followed by `unlockUser`.  Returns the
resulting registry together with the typed failure, if any. -/
def adminUnlock (caller : User) (target : User) (users : List User) :
    List User × Option AdminError :=
  if caller.role == Role.ADMIN then
    (unlockUser target users, none)
  else
    (users, some .privilegeError)

/-! ## Concrete fixtures used by counterexamples and witnesses -/

/-- A stand-in deterministic digest function for the injected `hashPassword`
primitive (SHA-256 over `password + "salt"` via `crypto.subtle` in the source;
the machine only compares digests for equality). -/
def demoHash : String → String := fun s => "digest:" ++ s

/-- An MFA-enabled STAFF user with no failed attempts. -/
def mfaUser : User :=
  { id := "u9", username := "bob", fullName := "Bob", email := "bob@x.com",
    role := .STAFF, department := .IT, clearanceLevel := .PUBLIC,
    passwordHash := demoHash "pw1", mfaEnabled := true, isLocked := false,
    failedLoginAttempts := 0, biometricsEnabled := false }

/-- Initial login-flow state with `mfaUser` registered. -/
def authStart : AuthMachine :=
  { users := [mfaUser], step := .CREDENTIALS, tempUser := none, currentUser := none }

/-- The state after a correct credentials submission for `mfaUser` followed by
three consecutive wrong second-factor tokens: the registry's `bob` is locked. -/
def lockedMfaState : AuthMachine :=
  (handleMfaSubmit
    (handleMfaSubmit
      (handleMfaSubmit
        (handleLoginSubmit demoHash authStart "bob" "pw1" 7 7).1 "000000").1 "000000").1
    "000000").1

/-- The spec's concrete-scenario subject `{role: STAFF, department: FINANCE, clearance: INTERNAL}`. -/
def c5User : User :=
  { id := "u3", username := "charlie", fullName := "Charlie", email := "c@x.com",
    role := .STAFF, department := .FINANCE, clearanceLevel := .INTERNAL,
    passwordHash := "h", mfaEnabled := false, isLocked := false,
    failedLoginAttempts := 0, biometricsEnabled := false }

/-- The spec's concrete-scenario resource with `classification = PUBLIC`,
owned by another user and shared with nobody. -/
def c5Resource : Resource :=
  { id := "r1", name := "doc", type := .DOCUMENT, content := "data",
    ownerId := "u7", classification := .PUBLIC, department := .FINANCE,
    sharedWith := [] }

/-- Every model enabled, working hours 9-17. -/
def allTrueConfig : SystemConfig :=
  { enableMAC := true, enableDAC := true, enableRBAC := true, enableRuBAC := true,
    enableABAC := true, workingHoursStart := 9, workingHoursEnd := 17 }

/-- Only RuBAC enabled, working hours 9-17. -/
def rubacOnlyConfig : SystemConfig :=
  { enableMAC := false, enableDAC := false, enableRBAC := false, enableRuBAC := true,
    enableABAC := false, workingHoursStart := 9, workingHoursEnd := 17 }

/-- Only DAC enabled, working hours 9-17. -/
def dacOnlyConfig : SystemConfig :=
  { enableMAC := false, enableDAC := true, enableRBAC := false, enableRuBAC := false,
    enableABAC := false, workingHoursStart := 9, workingHoursEnd := 17 }

/-- A STAFF user with PUBLIC clearance (fails MAC on anything above PUBLIC and
RBAC on anything CONFIDENTIAL or above). -/
def staffLowUser : User :=
  { id := "u4", username := "dana", fullName := "Dana", email := "d@x.com",
    role := .STAFF, department := .IT, clearanceLevel := .PUBLIC,
    passwordHash := "h", mfaEnabled := false, isLocked := false,
    failedLoginAttempts := 0, biometricsEnabled := false }

/-- A CONFIDENTIAL resource in the IT department owned by someone else. -/
def confidentialResource : Resource :=
  { id := "r2", name := "report", type := .REPORT, content := "secret",
    ownerId := "u7", classification := .CONFIDENTIAL, department := .IT,
    sharedWith := [] }

/-- A FINANCE department MANAGER. -/
def managerUser : User :=
  { id := "u5", username := "mia", fullName := "Mia", email := "m@x.com",
    role := .MANAGER, department := .FINANCE, clearanceLevel := .CONFIDENTIAL,
    passwordHash := "h", mfaEnabled := false, isLocked := false,
    failedLoginAttempts := 0, biometricsEnabled := false }

/-- An INTERNAL FINANCE resource that `managerUser` neither owns nor is shared on. -/
def deptResource : Resource :=
  { id := "r3", name := "ledger", type := .DOCUMENT, content := "numbers",
    ownerId := "u99", classification := .INTERNAL, department := .FINANCE,
    sharedWith := [] }

/-- An ADMIN user. -/
def adminUser : User :=
  { id := "u1", username := "admin", fullName := "Admin", email := "a@x.com",
    role := .ADMIN, department := .IT, clearanceLevel := .TOP_SECRET,
    passwordHash := "h", mfaEnabled := true, isLocked := false,
    failedLoginAttempts := 0, biometricsEnabled := true }

/-- A STAFF user `bob` with a clean failure counter. -/
def freshBob : User :=
  { id := "u2", username := "bob", fullName := "Bob", email := "bob@x.com",
    role := .STAFF, department := .HR, clearanceLevel := .INTERNAL,
    passwordHash := demoHash "pw1", mfaEnabled := false, isLocked := false,
    failedLoginAttempts := 0, biometricsEnabled := false }

/-- A small registry satisfying the lock invariant. -/
def demoRegistry : List User := [adminUser, freshBob]

/-- `freshBob` after one recorded failure. -/
def bobAfter1 : User := { freshBob with failedLoginAttempts := 1, isLocked := false }

/-- `freshBob` locked out after three failures. -/
def lockedBob : User := { freshBob with failedLoginAttempts := 3, isLocked := true }

/-- A registry containing a locked account. -/
def lockedRegistry : List User := [adminUser, lockedBob]

/-- `lockedBob` after an admin unlock. -/
def unlockedBob : User := { lockedBob with isLocked := false, failedLoginAttempts := 0 }

/-! ## Theorems settling the claims -/

/-- C1: the claim says a subject locked while awaiting the second factor can
never reach Authenticated through `submitSecondFactor`, staying Locked until
an explicit admin unlock.  The code violates this: after three wrong tokens
lock `bob` in the registry, `handleMfaSubmit` with the correct token checks
only the token value and the stale `tempUser` snapshot — never the registry's
`isLocked` — so it authenticates the locked subject and, through the success
path's `recordLoginAttempt(username, true)`, silently clears the lock. -/
theorem mfa_lock_bypass :
    (findUser lockedMfaState.users "bob").map User.isLocked = some true ∧
    lockedMfaState.step = AuthStep.MFA ∧
    (handleMfaSubmit lockedMfaState "123456").2 = LoginOutcome.authenticated ∧
    (handleMfaSubmit lockedMfaState "123456").1.currentUser = some mfaUser ∧
    (findUser (handleMfaSubmit lockedMfaState "123456").1.users "bob").map User.isLocked
      = some false := by
  decide

/-- C2 counterexample: `checkAccess` is not a function of its three arguments
alone — with RuBAC enabled, the same subject, resource and config yield
different Decisions at clock hours 10 and 3. -/
theorem checkAccess_clock_dependent :
    checkAccess c5User c5Resource rubacOnlyConfig 10
      ≠ checkAccess c5User c5Resource rubacOnlyConfig 3 := by
  decide

/-- C2 amended: `evaluate` is a deterministic function of subject, resource,
config and the current clock hour (the ambient `new Date().getHours()` read);
whenever `enableRuBAC` is false, the Decision does not depend on the hour, so
any two invocations with identical subject, resource and config agree. -/
theorem checkAccess_deterministic_given_hour (user : User) (resource : Resource)
    (config : SystemConfig) (h1 h2 : Nat) (hru : config.enableRuBAC = false) :
    checkAccess user resource config h1 = checkAccess user resource config h2 := by
  simp [checkAccess, hru]

/-- Witness for `checkAccess_deterministic_given_hour` at a concrete input. -/
theorem checkAccess_deterministic_given_hour_witness :
    dacOnlyConfig.enableRuBAC = false ∧
    checkAccess c5User c5Resource dacOnlyConfig 10
      = checkAccess c5User c5Resource dacOnlyConfig 3 :=
  ⟨rfl, checkAccess_deterministic_given_hour c5User c5Resource dacOnlyConfig 10 3 rfl⟩

/-- C5 counterexample: with every config flag true (working hours 9-17), the
spec's PUBLIC-resource scenario is *not* always allowed — at clock hour 3 the
STAFF subject is denied by RuBAC, which is not exempted for PUBLIC resources. -/
theorem public_scenario_denied_offhours :
    checkAccess c5User c5Resource allTrueConfig 3
      = { allowed := false, reason := rubacReason 9 17 } := by
  decide

/-- C5 amended: for the subject {role: STAFF, department: FINANCE, clearance:
INTERNAL} and the PUBLIC resource of the scenario, with every config flag true,
`evaluate` returns allowed at every invocation whose current hour lies inside
the configured working-hours window [start, end); outside that window RuBAC
denies the (non-ADMIN) subject. -/
theorem public_scenario_allowed_in_hours (hStart hEnd hour : Nat)
    (h1 : hStart ≤ hour) (h2 : hour < hEnd) :
    checkAccess c5User c5Resource
      { enableMAC := true, enableDAC := true, enableRBAC := true, enableRuBAC := true,
        enableABAC := true, workingHoursStart := hStart, workingHoursEnd := hEnd } hour
      = { allowed := true, reason := "Access Granted" } := by
  have e1 : decide (hour < hStart) = false := decide_eq_false (Nat.not_lt.mpr h1)
  have e2 : decide (hour ≥ hEnd) = false := decide_eq_false (Nat.not_le.mpr h2)
  simp [checkAccess, c5User, c5Resource, SecurityLevel.toNat, e1, e2]

/-- Witness for `public_scenario_allowed_in_hours` at hour 10 in window 9-17. -/
theorem public_scenario_allowed_in_hours_witness :
    (9 ≤ 10 ∧ 10 < 17) ∧
    checkAccess c5User c5Resource allTrueConfig 10
      = { allowed := true, reason := "Access Granted" } :=
  ⟨by decide, public_scenario_allowed_in_hours 9 17 10 (by decide) (by decide)⟩

/-- C7: a MANAGER whose department matches the resource's, on a resource
classified above PUBLIC that they neither own nor appear in `sharedWith` of,
is allowed when DAC is the only enabled model — the `isDeptManager` clause of
`checkAccess` suppresses the DAC denial. -/
theorem dac_manager_exception (user : User) (resource : Resource)
    (hStart hEnd hour : Nat)
    (hrole : user.role = Role.MANAGER)
    (hdept : user.department = resource.department)
    (hclass : resource.classification.toNat > SecurityLevel.PUBLIC.toNat)
    (howner : resource.ownerId ≠ user.id)
    (hshared : resource.sharedWith.contains user.id = false) :
    checkAccess user resource
      { enableMAC := false, enableDAC := true, enableRBAC := false, enableRuBAC := false,
        enableABAC := false, workingHoursStart := hStart, workingHoursEnd := hEnd } hour
      = { allowed := true, reason := "Access Granted" } := by
  simp [checkAccess, hrole, hdept]

/-- Witness for `dac_manager_exception`: the FINANCE manager on an INTERNAL
FINANCE resource owned by someone else and shared with nobody. -/
theorem dac_manager_exception_witness :
    (managerUser.role = Role.MANAGER ∧ managerUser.department = deptResource.department
      ∧ deptResource.classification.toNat > SecurityLevel.PUBLIC.toNat
      ∧ deptResource.ownerId ≠ managerUser.id
      ∧ deptResource.sharedWith.contains managerUser.id = false) ∧
    checkAccess managerUser deptResource dacOnlyConfig 10
      = { allowed := true, reason := "Access Granted" } :=
  ⟨by decide,
   dac_manager_exception managerUser deptResource 9 17 10 rfl rfl (by decide) (by decide) rfl⟩

/-- C4: when MAC and RBAC are both enabled and both would deny (insufficient
clearance, and either a non-ADMIN on TOP_SECRET or STAFF on CONFIDENTIAL or
above), `checkAccess` returns the MAC denial — MAC is tested first and
short-circuits, so the reason cites MAC and never RBAC. -/
theorem mac_reported_before_rbac (user : User) (resource : Resource)
    (config : SystemConfig) (hour : Nat)
    (hmac : config.enableMAC = true) (hrbac : config.enableRBAC = true)
    (hclr : user.clearanceLevel.toNat < resource.classification.toNat)
    (hden : (resource.classification = SecurityLevel.TOP_SECRET ∧ user.role ≠ Role.ADMIN)
        ∨ (SecurityLevel.CONFIDENTIAL.toNat ≤ resource.classification.toNat
            ∧ user.role = Role.STAFF)) :
    checkAccess user resource config hour
      = { allowed := false,
          reason := macReason user.clearanceLevel resource.classification } ∧
    List.isPrefixOf "MAC:".data (macReason user.clearanceLevel resource.classification).data
      = true ∧
    List.isPrefixOf "RBAC".data (checkAccess user resource config hour).reason.data
      = false := by
  have hmain : checkAccess user resource config hour
      = { allowed := false,
          reason := macReason user.clearanceLevel resource.classification } := by
    simp [checkAccess, hmac, hclr]
  refine ⟨hmain, ?_, ?_⟩
  · cases user.clearanceLevel <;> cases resource.classification <;> decide
  · rw [hmain]
    cases user.clearanceLevel <;> cases resource.classification <;> decide

/-- Witness for `mac_reported_before_rbac`: PUBLIC-cleared STAFF on a
CONFIDENTIAL resource with all models enabled. -/
theorem mac_reported_before_rbac_witness :
    (allTrueConfig.enableMAC = true ∧ allTrueConfig.enableRBAC = true
      ∧ staffLowUser.clearanceLevel.toNat < confidentialResource.classification.toNat
      ∧ SecurityLevel.CONFIDENTIAL.toNat ≤ confidentialResource.classification.toNat
      ∧ staffLowUser.role = Role.STAFF) ∧
    checkAccess staffLowUser confidentialResource allTrueConfig 10
      = { allowed := false,
          reason := macReason SecurityLevel.PUBLIC SecurityLevel.CONFIDENTIAL } :=
  ⟨by decide,
   (mac_reported_before_rbac staffLowUser confidentialResource allTrueConfig 10
      rfl rfl (by decide) (Or.inr (by decide))).1⟩

/-- `(?=.*[p])` reduces to a plain `any` when the text has no line terminator. -/
theorem existsBeforeTerminator_eq_any (p : Char → Bool) (l : List Char)
    (h : ∀ c ∈ l, isJsLineTerminator c = false) :
    existsBeforeTerminator p l = l.any p := by
  induction l with
  | nil => rfl
  | cons c cs ih =>
    have hc : isJsLineTerminator c = false := h c (List.mem_cons_self c cs)
    have ih' := ih (fun x hx => h x (List.mem_cons_of_mem c hx))
    simp [existsBeforeTerminator, dotMatches, hc, ih', List.any_cons]

/-- `(?=.{n,})` reduces to a length test when the text has no line terminator. -/
theorem dotRun_eq_length (n : Nat) (l : List Char)
    (h : ∀ c ∈ l, isJsLineTerminator c = false) :
    dotRun n l = decide (n ≤ l.length) := by
  induction n generalizing l with
  | zero => simp [dotRun]
  | succ n ih =>
    cases l with
    | nil => simp [dotRun]
    | cons c cs =>
      have hc : isJsLineTerminator c = false := h c (List.mem_cons_self c cs)
      have ih' := ih cs (fun x hx => h x (List.mem_cons_of_mem c hx))
      simp [dotRun, dotMatches, hc, ih', Nat.succ_le_succ_iff]

/-- C8 counterexample: the 9-character password `"aA1\n!bcde"` contains a
lowercase letter, an uppercase letter, a digit and `!`, so the claim's
criterion accepts it — yet the source reports a violation, because the
regex's `.` does not match the newline, failing both `(?=.{8,})` and the
symbol lookahead. -/
theorem password_newline_counterexample :
    specStrengthCriteria "aA1\n!bcde" = true ∧
    validatePasswordStrength "aA1\n!bcde"
      = some "Password must be 8+ chars, include uppercase, number, and symbol." := by
  decide

/-- C8 amended: for passwords containing no JavaScript line terminator
(`\n`, `\r`, U+2028, U+2029), `validatePasswordStrength` returns no violation
iff the password has at least 8 characters and contains a lowercase letter, an
uppercase letter, a digit and a symbol from `!@#$%^&*`; a password with a line
terminator can satisfy those criteria and still be rejected. -/
theorem password_strength_iff (password : String)
    (h : ∀ c ∈ password.data, isJsLineTerminator c = false) :
    validatePasswordStrength password = none ↔ specStrengthCriteria password = true := by
  have htest : strongRegexTest password = specStrengthCriteria password := by
    unfold strongRegexTest specStrengthCriteria
    rw [existsBeforeTerminator_eq_any _ _ h, existsBeforeTerminator_eq_any _ _ h,
        existsBeforeTerminator_eq_any _ _ h, existsBeforeTerminator_eq_any _ _ h,
        dotRun_eq_length _ _ h]
    have hlen : decide (password.length ≥ 8) = decide (8 ≤ password.data.length) := rfl
    rw [hlen]
    cases h1 : password.data.any isLowerAZ <;> cases h2 : password.data.any isUpperAZ <;>
      cases h3 : password.data.any isDigit09 <;> cases h4 : password.data.any isStrongSymbol <;>
      cases h5 : decide (8 ≤ password.data.length) <;> rfl
  by_cases hc : specStrengthCriteria password = true <;>
    simp [validatePasswordStrength, htest, hc]

/-- Witness for `password_strength_iff` on a terminator-free password. -/
theorem password_strength_iff_witness :
    (∀ c ∈ "aB3!xyzw".data, isJsLineTerminator c = false) ∧
    validatePasswordStrength "aB3!xyzw" = none :=
  ⟨by decide, (password_strength_iff "aB3!xyzw" (by decide)).mpr (by decide)⟩

/-- `attemptUpdate` never changes the username. -/
theorem attemptUpdate_username (username : String) (success : Bool) (u : User) :
    (attemptUpdate username success u).username = u.username := by
  unfold attemptUpdate
  split
  · split <;> rfl
  · rfl

/-- Looking a user up after `recordLoginAttempt` is looking them up before and
applying the per-user update. -/
theorem findUser_recordLoginAttempt (users : List User) (name username : String)
    (success : Bool) :
    findUser (recordLoginAttempt username success users) name
      = (findUser users name).map (attemptUpdate username success) := by
  unfold findUser recordLoginAttempt
  induction users with
  | nil => rfl
  | cons u us ih =>
    simp only [List.map_cons, List.find?_cons, attemptUpdate_username]
    cases hu : (u.username == name) <;> simp [hu, ih]

/-- C3: `recordLoginAttempt` (failure or success) and `adminUnlock` each
preserve the invariant `isLocked = (failedLoginAttempts ≥ 3)`; from a clean
counter, three consecutive recorded failures for a user flip `isLocked` from
false (still false after the second) to true at the third; and a recorded
success resets the counter to 0 and clears the lock. -/
theorem lock_invariant (users : List User) (name : String) (target caller tgt : User) :
    (∀ success : Bool,
       (∀ v ∈ users, v.isLocked = decide (v.failedLoginAttempts ≥ 3)) →
       ∀ v ∈ recordLoginAttempt name success users,
         v.isLocked = decide (v.failedLoginAttempts ≥ 3)) ∧
    ((∀ v ∈ users, v.isLocked = decide (v.failedLoginAttempts ≥ 3)) →
       ∀ v ∈ (adminUnlock caller tgt users).1,
         v.isLocked = decide (v.failedLoginAttempts ≥ 3)) ∧
    (findUser users name = some target → target.failedLoginAttempts = 0 →
       (findUser (recordLoginAttempt name false
           (recordLoginAttempt name false users)) name).map User.isLocked = some false ∧
       (findUser (recordLoginAttempt name false (recordLoginAttempt name false
           (recordLoginAttempt name false users))) name).map User.isLocked = some true) ∧
    (findUser users name = some target →
       findUser (recordLoginAttempt name true users) name
         = some { target with failedLoginAttempts := 0, isLocked := false }) := by
  refine ⟨?_, ?_, ?_, ?_⟩
  · intro success hinv v hv
    rw [recordLoginAttempt] at hv
    obtain ⟨u, hu, rfl⟩ := List.mem_map.mp hv
    unfold attemptUpdate
    by_cases h1 : (u.username == name) = true
    · cases success <;> simp [h1]
    · simpa [h1] using hinv u hu
  · intro hinv v hv
    unfold adminUnlock at hv
    by_cases hr : (caller.role == Role.ADMIN) = true
    · rw [if_pos hr] at hv
      unfold unlockUser updateUser at hv
      obtain ⟨u, hu, rfl⟩ := List.mem_map.mp hv
      split
      · rfl
      · exact hinv u hu
    · rw [if_neg hr] at hv
      exact hinv v hv
  · intro hfind h0
    have htname : (target.username == name) = true := by
      unfold findUser at hfind
      have h' := List.find?_some hfind
      simpa using h' 
    constructor
    · rw [findUser_recordLoginAttempt, findUser_recordLoginAttempt, hfind]
      simp [attemptUpdate, htname, h0]
    · rw [findUser_recordLoginAttempt, findUser_recordLoginAttempt,
          findUser_recordLoginAttempt, hfind]
      simp [attemptUpdate, htname, h0]
  · intro hfind
    have htname : (target.username == name) = true := by
      unfold findUser at hfind
      have h' := List.find?_some hfind
      simpa using h' 
    rw [findUser_recordLoginAttempt, hfind]
    simp [attemptUpdate, htname]

/-- Witness for `lock_invariant` on the concrete registry `[adminUser, freshBob]`. -/
theorem lock_invariant_witness :
    bobAfter1.isLocked = decide (bobAfter1.failedLoginAttempts ≥ 3) ∧
    adminUser.isLocked = decide (adminUser.failedLoginAttempts ≥ 3) ∧
    (findUser (recordLoginAttempt "bob" false
        (recordLoginAttempt "bob" false demoRegistry)) "bob").map User.isLocked = some false ∧
    (findUser (recordLoginAttempt "bob" false (recordLoginAttempt "bob" false
        (recordLoginAttempt "bob" false demoRegistry))) "bob").map User.isLocked = some true ∧
    findUser (recordLoginAttempt "bob" true demoRegistry) "bob"
      = some { freshBob with failedLoginAttempts := 0, isLocked := false } :=
  ⟨(lock_invariant demoRegistry "bob" freshBob adminUser freshBob).1 false (by decide)
      bobAfter1 (by decide),
   (lock_invariant demoRegistry "bob" freshBob adminUser freshBob).2.1 (by decide)
      adminUser (by decide),
   ((lock_invariant demoRegistry "bob" freshBob adminUser freshBob).2.2.1
      (by decide) (by decide)).1,
   ((lock_invariant demoRegistry "bob" freshBob adminUser freshBob).2.2.1
      (by decide) (by decide)).2,
   (lock_invariant demoRegistry "bob" freshBob adminUser freshBob).2.2.2 (by decide)⟩

/-- C6: `adminUnlock` called by an ADMIN succeeds (no error) and resets the
target's `failedLoginAttempts` to 0 and `isLocked` to false, leaving every
other user in the registry; called by a non-ADMIN it fails with
`privilegeError` and leaves the registry exactly as it was. -/
theorem adminUnlock_behavior (caller target : User) (users : List User) :
    (caller.role = Role.ADMIN →
       (adminUnlock caller target users).2 = none ∧
       (∀ v ∈ (adminUnlock caller target users).1,
          v.id = target.id → v.failedLoginAttempts = 0 ∧ v.isLocked = false) ∧
       (∀ v ∈ (adminUnlock caller target users).1, v.id ≠ target.id → v ∈ users)) ∧
    (caller.role ≠ Role.ADMIN →
       (adminUnlock caller target users).2 = some AdminError.privilegeError ∧
       (adminUnlock caller target users).1 = users) := by
  constructor
  · intro hr
    have hr' : (caller.role == Role.ADMIN) = true := by simp [hr]
    refine ⟨by simp [adminUnlock, hr'], ?_, ?_⟩
    · intro v hv hid
      simp only [adminUnlock, hr', if_true] at hv
      unfold unlockUser updateUser at hv
      obtain ⟨u, hu, heq⟩ := List.mem_map.mp hv
      split at heq
      · rw [← heq]
        exact ⟨rfl, rfl⟩
      · rename_i hne
        rw [← heq] at hid
        simp [hid] at hne
    · intro v hv hne2
      simp only [adminUnlock, hr', if_true] at hv
      unfold unlockUser updateUser at hv
      obtain ⟨u, hu, heq⟩ := List.mem_map.mp hv
      split at heq
      · rw [← heq] at hne2
        exact absurd rfl hne2
      · rw [← heq]
        exact hu
  · intro hr
    have hr' : (caller.role == Role.ADMIN) = false := by
      simp [hr]
    constructor <;> simp [adminUnlock, hr']

/-- Witness for `adminUnlock_behavior`: the admin unlocks `lockedBob`, while
the STAFF user's attempt fails with `privilegeError` and changes nothing. -/
theorem adminUnlock_behavior_witness :
    ((adminUnlock adminUser lockedBob lockedRegistry).2 = none ∧
     unlockedBob.failedLoginAttempts = 0 ∧ unlockedBob.isLocked = false ∧
     adminUser ∈ lockedRegistry) ∧
    ((adminUnlock staffLowUser lockedBob lockedRegistry).2
        = some AdminError.privilegeError ∧
     (adminUnlock staffLowUser lockedBob lockedRegistry).1 = lockedRegistry) :=
  ⟨⟨((adminUnlock_behavior adminUser lockedBob lockedRegistry).1 rfl).1,
    (((adminUnlock_behavior adminUser lockedBob lockedRegistry).1 rfl).2.1
        unlockedBob (by decide) rfl).1,
    (((adminUnlock_behavior adminUser lockedBob lockedRegistry).1 rfl).2.1
        unlockedBob (by decide) rfl).2,
    ((adminUnlock_behavior adminUser lockedBob lockedRegistry).1 rfl).2.2
        adminUser (by decide) (by decide)⟩,
   ⟨((adminUnlock_behavior staffLowUser lockedBob lockedRegistry).2 (by decide)).1,
    ((adminUnlock_behavior staffLowUser lockedBob lockedRegistry).2 (by decide)).2⟩⟩

/-- C9: in `handleLoginSubmit`, a wrong captcha answer or an unknown username
returns the whole machine unchanged; none of the outcomes incorrectCaptcha,
unknownUser, lockedAccount or mfaRequired touches the user registry; and the
registry changes through a failure increment exactly in the invalidPassword
outcome, which requires an existing, unlocked user. -/
theorem login_frame (hash : String → String) (m : AuthMachine)
    (username password : String) (ci ca : Int) :
    (ci ≠ ca →
       handleLoginSubmit hash m username password ci ca = (m, LoginOutcome.incorrectCaptcha)) ∧
    (ci = ca → findUser m.users username = none →
       handleLoginSubmit hash m username password ci ca = (m, LoginOutcome.unknownUser)) ∧
    ((handleLoginSubmit hash m username password ci ca).2 = LoginOutcome.incorrectCaptcha
       ∨ (handleLoginSubmit hash m username password ci ca).2 = LoginOutcome.unknownUser
       ∨ (handleLoginSubmit hash m username password ci ca).2 = LoginOutcome.lockedAccount
       ∨ (handleLoginSubmit hash m username password ci ca).2 = LoginOutcome.mfaRequired →
       (handleLoginSubmit hash m username password ci ca).1.users = m.users) ∧
    ((handleLoginSubmit hash m username password ci ca).2 = LoginOutcome.invalidPassword →
       (findUser m.users username).map User.isLocked = some false ∧
       (handleLoginSubmit hash m username password ci ca).1.users
         = recordLoginAttempt username false m.users) := by
  refine ⟨?_, ?_, ?_, ?_⟩
  · intro hne
    have h1 : (ci == ca) = false := beq_eq_false_iff_ne.mpr hne
    simp [handleLoginSubmit, h1]
  · intro hca hfind
    have h1 : (ci == ca) = true := beq_iff_eq.mpr hca
    simp [handleLoginSubmit, h1, hfind]
  · intro hcases
    by_cases h1 : (ci == ca) = true
    · cases hfind : findUser m.users username with
      | none => simp [handleLoginSubmit, h1, hfind]
      | some user =>
        by_cases h2 : user.isLocked = true
        · simp [handleLoginSubmit, h1, hfind, h2]
        · by_cases h3 : (hash password == user.passwordHash) = true
          · by_cases h4 : user.mfaEnabled = true
            · simp [handleLoginSubmit, h1, hfind, h2, h3, h4]
            · simp [handleLoginSubmit, h1, hfind, h2, h3, h4] at hcases
          · simp [handleLoginSubmit, h1, hfind, h2, h3] at hcases
    · simp [handleLoginSubmit, h1]
  · intro hout
    by_cases h1 : (ci == ca) = true
    · cases hfind : findUser m.users username with
      | none => simp [handleLoginSubmit, h1, hfind] at hout
      | some user =>
        by_cases h2 : user.isLocked = true
        · simp [handleLoginSubmit, h1, hfind, h2] at hout
        · by_cases h3 : (hash password == user.passwordHash) = true
          · by_cases h4 : user.mfaEnabled = true
            · simp [handleLoginSubmit, h1, hfind, h2, h3, h4] at hout
            · simp [handleLoginSubmit, h1, hfind, h2, h3, h4] at hout
          · constructor
            · simpa using h2
            · simp [handleLoginSubmit, h1, hfind, h2, h3]
    · simp [handleLoginSubmit, h1] at hout

/-- Witness for `login_frame` on the concrete machine with `mfaUser` registered. -/
theorem login_frame_witness :
    handleLoginSubmit demoHash authStart "bob" "pw1" 1 2
      = (authStart, LoginOutcome.incorrectCaptcha) ∧
    handleLoginSubmit demoHash authStart "nobody" "pw1" 7 7
      = (authStart, LoginOutcome.unknownUser) ∧
    (handleLoginSubmit demoHash authStart "bob" "pw1" 7 7).1.users = authStart.users ∧
    ((findUser authStart.users "bob").map User.isLocked = some false ∧
     (handleLoginSubmit demoHash authStart "bob" "wrong" 7 7).1.users
       = recordLoginAttempt "bob" false authStart.users) :=
  ⟨(login_frame demoHash authStart "bob" "pw1" 1 2).1 (by decide),
   (login_frame demoHash authStart "nobody" "pw1" 7 7).2.1 rfl (by decide),
   (login_frame demoHash authStart "bob" "pw1" 7 7).2.2.1 (Or.inr (Or.inr (Or.inr (by decide)))),
   (login_frame demoHash authStart "bob" "wrong" 7 7).2.2.2 (by decide)⟩

/-- The per-user update of `recordLoginAttempt` leaves a non-matching user
untouched and, for any user, changes none of the fields other than
`failedLoginAttempts` and `isLocked`. -/
theorem attemptUpdate_frame (username : String) (success : Bool) (u : User) :
    (u.username ≠ username → attemptUpdate username success u = u) ∧
    ((attemptUpdate username success u).id = u.id ∧
     (attemptUpdate username success u).username = u.username ∧
     (attemptUpdate username success u).fullName = u.fullName ∧
     (attemptUpdate username success u).email = u.email ∧
     (attemptUpdate username success u).role = u.role ∧
     (attemptUpdate username success u).department = u.department ∧
     (attemptUpdate username success u).clearanceLevel = u.clearanceLevel ∧
     (attemptUpdate username success u).passwordHash = u.passwordHash ∧
     (attemptUpdate username success u).mfaEnabled = u.mfaEnabled ∧
     (attemptUpdate username success u).biometricsEnabled = u.biometricsEnabled) := by
  unfold attemptUpdate
  by_cases hm : (u.username == username) = true
  · constructor
    · intro hne
      exact absurd (by simpa using hm) hne
    · cases success <;> simp [hm]
  · constructor
    · intro _
      simp [hm]
    · simp [hm]

/-- C10: `recordLoginAttempt` preserves the registry's length; positionally,
every user whose username differs from the argument is returned unchanged,
and even the matching user keeps every field other than `failedLoginAttempts`
and `isLocked` (id, username, fullName, email, role, department,
clearanceLevel, passwordHash, mfaEnabled, biometricsEnabled). -/
theorem recordLoginAttempt_frame (username : String) (success : Bool)
    (users : List User) :
    (recordLoginAttempt username success users).length = users.length ∧
    ∀ p ∈ List.zip users (recordLoginAttempt username success users),
      (p.1.username ≠ username → p.2 = p.1) ∧
      (p.2.id = p.1.id ∧ p.2.username = p.1.username ∧ p.2.fullName = p.1.fullName ∧
       p.2.email = p.1.email ∧ p.2.role = p.1.role ∧ p.2.department = p.1.department ∧
       p.2.clearanceLevel = p.1.clearanceLevel ∧ p.2.passwordHash = p.1.passwordHash ∧
       p.2.mfaEnabled = p.1.mfaEnabled ∧ p.2.biometricsEnabled = p.1.biometricsEnabled) := by
  constructor
  · simp [recordLoginAttempt]
  · intro p hp
    induction users with
    | nil => simp [recordLoginAttempt] at hp
    | cons u us ih =>
      rw [recordLoginAttempt, List.map_cons, List.zip_cons_cons] at hp
      rcases List.mem_cons.mp hp with h | h
      · subst h
        exact attemptUpdate_frame username success u
      · exact ih (by rw [recordLoginAttempt]; exact h)

/-- Witness for `recordLoginAttempt_frame`: recording a failure for `bob`
leaves the admin entry of the registry untouched. -/
theorem recordLoginAttempt_frame_witness :
    ((adminUser, adminUser) ∈ List.zip demoRegistry
        (recordLoginAttempt "bob" false demoRegistry) ∧
     adminUser.username ≠ "bob") ∧
    (adminUser, adminUser).2 = (adminUser, adminUser).1 :=
  ⟨⟨by decide, by decide⟩,
   ((recordLoginAttempt_frame "bob" false demoRegistry).2
       (adminUser, adminUser) (by decide)).1 (by decide)⟩

end CMS
